import Mathlib

/-!
Verification of the RPLIDAR C++ hardware diagnostic
(`src/rplidar_cpp_diagnostic.cpp`) against its natural-language
specification.

The program is single-threaded and interacts with the outside world only
through the serial device and the wall clock, so we embed it shallowly:
the environment's replies for one matrix cell are collected in a
`PortBehavior` record (what `openSerial`, `writeData` and `readData`
return for each of the program's I/O calls), and `testPort` becomes a
pure function from that record to the `TestResult` the C++ function
produces.  Machine integers are modelled as `Nat`/`Int`; bytes are
reduced mod 256 where the C++ type is `uint8_t`.
-/

namespace RPLidar

/-- Result of one `readData` call: `err` models a negative return value
(a hard I/O error), `data bs` models a successful read of `bs.length`
bytes whose values are the entries of `bs` (each reduced mod 256, the
buffer being `uint8_t[]`). -/
inductive ReadResult where
  | err : ReadResult
  | data : List Nat → ReadResult
deriving DecidableEq

/-- Byte count as the C++ caller sees it (`int bytes = readData(...)`):
`-1` for a hard error, the length of the data otherwise. -/
def ReadResult.bytes : ReadResult → Int
  | .err => -1
  | .data bs => bs.length

/-- Value of `buffer[i]` after the read; the program only indexes the
buffer below the returned byte count, so the default 0 is never
observed on the paths we verify. -/
def ReadResult.byteAt : ReadResult → Nat → Nat
  | .err, _ => 0
  | .data bs, i => bs.getD i 0 % 256

/-- Header check performed on info/health responses
(src lines 284, 311): `buffer[0] == 0xA5 && buffer[1] == 0x5A`. -/
def validHeader (r : ReadResult) : Bool :=
  r.byteAt 0 == 0xA5 && r.byteAt 1 == 0x5A

/-- Mirror of `struct TestResult` (src lines 30-40).  `test_duration_ms`
is a `double` in the source; we model the measured elapsed time as a
`Nat` supplied by the environment, since only "a duration is recorded"
is ever claimed. -/
structure TestResult where
  port : String
  baudrate : Nat
  raw_communication : Bool
  device_info_success : Bool
  health_check_success : Bool
  scan_start_success : Bool
  scan_points_received : Nat
  error_message : String
  test_duration_ms : Nat
deriving DecidableEq

/-- Everything the environment decides during one `testPort` call: the
outcome of `openSerial`, of each `writeData`, and each `readData`
reply.  `scanReads i` is the byte count returned by the `i`-th read of
the scan loop; `duration` is the elapsed time the clock reports. -/
structure PortBehavior where
  openOk : Bool
  resetWriteOk : Bool
  resetRead : ReadResult
  infoWriteOk : Bool
  infoRead : ReadResult
  healthWriteOk : Bool
  healthRead : ReadResult
  scanWriteOk : Bool
  scanReads : Nat → Int
  stopWriteOk : Bool
  duration : Nat

/-- The five command frames (src lines 262, 277, 305, 328, 367). -/
def resetCmd : List Nat := [0xA5, 0x40]

/-- GET_INFO command frame. -/
def infoCmd : List Nat := [0xA5, 0x50]

/-- GET_HEALTH command frame. -/
def healthCmd : List Nat := [0xA5, 0x52]

/-- START_SCAN command frame. -/
def scanCmd : List Nat := [0xA5, 0x20]

/-- STOP command frame. -/
def stopCmd : List Nat := [0xA5, 0x25]

/-- `const int max_attempts = 20` (src line 336). -/
def max_attempts : Nat := 20

/-- The scan-reading loop of `testPort` (src lines 338-355), unrolled on
the number of remaining attempts.  Each iteration reads once; a read of
`bytes > 0` adds `bytes / 5` heuristic points to the running total, and
the loop breaks with success as soon as the total exceeds 10.  Returns
`(scan_start_success, total_points)`. -/
def scanLoopFrom (reads : Nat → Int) : Nat → Nat → Nat → Bool × Nat
  | _, total, 0 => (false, total)
  | attempts, total, n + 1 =>
    let bytes := reads attempts
    if 0 < bytes then
      let total2 := total + bytes.toNat / 5
      if 10 < total2 then (true, total2)
      else scanLoopFrom reads (attempts + 1) total2 n
    else scanLoopFrom reads (attempts + 1) total n

/-- The scan loop as entered by `testPort`: counters start at 0, at most
`max_attempts` reads. -/
def scanLoop (reads : Nat → Int) : Bool × Nat :=
  scanLoopFrom reads 0 0 max_attempts

/-- Test 1, raw communication (src lines 262-273): success iff the RESET
write succeeds and the following read returns a positive byte count. -/
def rawOutcome (b : PortBehavior) : Bool :=
  b.resetWriteOk && decide (0 < b.resetRead.bytes)

/-- Test 2, device info (src lines 277-301): success iff the GET_INFO
write succeeds, at least 7 bytes come back, and the header is valid. -/
def infoOutcome (b : PortBehavior) : Bool :=
  b.infoWriteOk && (decide (7 ≤ b.infoRead.bytes) && validHeader b.infoRead)

/-- Test 3, health (src lines 305-324): success iff the GET_HEALTH write
succeeds, at least 10 bytes come back, and the header is valid. -/
def healthOutcome (b : PortBehavior) : Bool :=
  b.healthWriteOk && (decide (10 ≤ b.healthRead.bytes) && validHeader b.healthRead)

/-- Test 4, scan (src lines 328-364): if the START_SCAN write succeeds
the scan loop runs; otherwise the success flag and point count keep
their initial values (`false`, 0). -/
def scanOutcome (b : PortBehavior) : Bool × Nat :=
  if b.scanWriteOk then scanLoop b.scanReads else (false, 0)

/-- `testPort` (src lines 238-377) as a function of the environment's
behavior for the cell.  On open failure only the error message and the
duration are populated and no probe phase runs; on open success the four
phases fill their fields and the error message stays empty. -/
def testPort (port : String) (baudrate : Nat) (b : PortBehavior) : TestResult :=
  if b.openOk then
    { port := port
      baudrate := baudrate
      raw_communication := rawOutcome b
      device_info_success := infoOutcome b
      health_check_success := healthOutcome b
      scan_start_success := (scanOutcome b).1
      scan_points_received := (scanOutcome b).2
      error_message := ""
      test_duration_ms := b.duration }
  else
    { port := port
      baudrate := baudrate
      raw_communication := false
      device_info_success := false
      health_check_success := false
      scan_start_success := false
      scan_points_received := 0
      error_message := "Failed to open serial port"
      test_duration_ms := b.duration }

/-- `std::vector<int> baudrates = {115200, 256000, 230400, 460800, 921600}`
(src line 394). -/
def baudrates : List Nat := [115200, 256000, 230400, 460800, 921600]

/-- The nested port × baudrate loop of `runFullDiagnostic`
(src lines 397-424): one `testPort` call, hence one result, per cell, in
discovery order for ports and `baudrates` order within a port. -/
def runMatrix (ports : List String) (env : String → Nat → PortBehavior) :
    List TestResult :=
  ports.flatMap fun p => baudrates.map fun baud => testPort p baud (env p baud)

/-- `runFullDiagnostic` (src lines 379-428): early return with no results
when discovery finds no ports, otherwise the full matrix. -/
def runFullDiagnostic (ports : List String) (env : String → Nat → PortBehavior) :
    List TestResult :=
  if ports.isEmpty then [] else runMatrix ports env

/-- The summary block `finalizeLogs` writes (src lines 476-496). -/
structure Summary where
  total_tests : Nat
  working_configurations : Nat
  partial_configurations : Nat
deriving DecidableEq

/-- The counting loop of `finalizeLogs` (src lines 481-489): a result
with `scan_start_success` counts as working; otherwise, if any of the
three other probe booleans is set, it counts as partial.  Returns
`(working_configs, partial_configs)`. -/
def countConfigs : List TestResult → Nat × Nat
  | [] => (0, 0)
  | r :: rs =>
    let rest := countConfigs rs
    if r.scan_start_success then (rest.1 + 1, rest.2)
    else if r.device_info_success || r.health_check_success || r.raw_communication then
      (rest.1, rest.2 + 1)
    else rest

/-- `finalizeLogs` (src lines 476-496): the summary computed from the
accumulated results. -/
def finalizeLogs (results : List TestResult) : Summary :=
  { total_tests := results.length
    working_configurations := (countConfigs results).1
    partial_configurations := (countConfigs results).2 }

/-- The persisted report document: the appended `test_results` entries
plus the closing summary. -/
structure Report where
  test_results : List TestResult
  summary : Summary
deriving DecidableEq

/-- `main` (src lines 499-503): `runFullDiagnostic` accumulates the
results, and the destructor (src lines 64-67) finalizes the log from
exactly those results — once, on every termination path, including the
early return when discovery finds no ports. -/
def mainRun (ports : List String) (env : String → Nat → PortBehavior) : Report :=
  { test_results := runFullDiagnostic ports env
    summary := finalizeLogs (runFullDiagnostic ports env) }

/-- The device-info fields the program extracts (prints) from a ≥20-byte
response (src lines 289-293): `buffer[7]` model, `buffer[8]`/`buffer[9]`
firmware major/minor, `buffer[10]` hardware version. -/
structure DeviceInfoFields where
  model : Nat
  firmware_major : Nat
  firmware_minor : Nat
  hardware : Nat
deriving DecidableEq

/-- Field extraction of the device-info phase (src lines 282-293):
fields are read out only when the success conditions hold and at least
20 bytes are present. -/
def extractDeviceInfo (r : ReadResult) : Option DeviceInfoFields :=
  if 7 ≤ r.bytes ∧ validHeader r = true ∧ 20 ≤ r.bytes then
    some ⟨r.byteAt 7, r.byteAt 8, r.byteAt 9, r.byteAt 10⟩
  else none

/-- Device-info fields as the specification describes them, including
the 16-byte serial number. -/
structure SpecDeviceInfoFields where
  model : Nat
  firmware_major : Nat
  firmware_minor : Nat
  hardware : Nat
  serial_number : List Nat
deriving DecidableEq

/-- Modelled from the spec: "DeviceInfoFields (valid only if response
length ≥ 20): model (1 byte), firmware major/minor (2 bytes), hardware
version (1 byte), 16-byte serial number — offsets are fixed relative to
response start".  The serial number occupies the 16 bytes following the
hardware-version byte (offsets 11-26).  The source has no code
extracting a serial number; this definition exists only to compare the
spec's words with `extractDeviceInfo`. -/
def extractDeviceInfoSpec (r : ReadResult) : Option SpecDeviceInfoFields :=
  if 7 ≤ r.bytes ∧ validHeader r = true ∧ 20 ≤ r.bytes then
    some ⟨r.byteAt 7, r.byteAt 8, r.byteAt 9, r.byteAt 10,
          (List.range 16).map fun i => r.byteAt (11 + i)⟩
  else none

/-- The health fields the program extracts (src lines 313-314):
`status = buffer[7]`, `error_code = (buffer[9] << 8) | buffer[8]`. -/
structure HealthFields where
  status : Nat
  error_code : Nat
deriving DecidableEq

/-- Field extraction of the health phase (src lines 310-317); the error
code is assembled by the source's shift-or expression. -/
def extractHealth (r : ReadResult) : Option HealthFields :=
  if 10 ≤ r.bytes ∧ validHeader r = true then
    some ⟨r.byteAt 7, (r.byteAt 9 <<< 8) ||| r.byteAt 8⟩
  else none

/-- Observable I/O events of one `testPort` call, in program order:
the open attempt, each 2-byte command write, each settle delay
(milliseconds), each read (with the byte count it returned), and the
final `closeSerial`. -/
inductive Event where
  | openPort : Bool → Event
  | cmd : List Nat → Event
  | delay : Nat → Event
  | readEvt : Int → Event
  | closePort : Event
deriving DecidableEq

/-- Trace of one probe phase (raw/info/health, src lines 262-324): the
command write is always attempted; the settle delay and the read happen
only when the write succeeds. -/
def phaseTrace (writeOk : Bool) (frame : List Nat) (settle : Nat)
    (r : ReadResult) : List Event :=
  Event.cmd frame :: if writeOk then [Event.delay settle, Event.readEvt r.bytes] else []

/-- Trace of the scan loop (src lines 338-355): each iteration reads
once; on `break` (running total exceeds 10) the trailing 100 ms sleep is
skipped, otherwise it is observed before the next attempt. -/
def scanLoopTraceFrom (reads : Nat → Int) : Nat → Nat → Nat → List Event
  | _, _, 0 => []
  | attempts, total, n + 1 =>
    let bytes := reads attempts
    Event.readEvt bytes ::
      if 0 < bytes then
        let total2 := total + bytes.toNat / 5
        if 10 < total2 then []
        else Event.delay 100 :: scanLoopTraceFrom reads (attempts + 1) total2 n
      else Event.delay 100 :: scanLoopTraceFrom reads (attempts + 1) total n

/-- Full I/O trace of `testPort` (src lines 238-377).  On open failure
the function returns before any probe; on open success the three
protocol phases run, then the scan phase, and then — on every path —
the STOP command is written, a 100 ms delay observed, and the port
closed (src lines 366-371). -/
def testPortTrace (b : PortBehavior) : List Event :=
  if b.openOk then
    Event.openPort true ::
      (phaseTrace b.resetWriteOk resetCmd 100 b.resetRead
        ++ phaseTrace b.infoWriteOk infoCmd 100 b.infoRead
        ++ phaseTrace b.healthWriteOk healthCmd 100 b.healthRead
        ++ (Event.cmd scanCmd ::
            if b.scanWriteOk then
              Event.delay 500 :: scanLoopTraceFrom b.scanReads 0 0 max_attempts
            else [])
        ++ [Event.cmd stopCmd, Event.delay 100, Event.closePort])
  else [Event.openPort false]

/-- I/O trace of the whole run (src lines 379-428): nothing at all when
discovery finds no ports, otherwise the concatenated cell traces. -/
def runTrace (ports : List String) (env : String → Nat → PortBehavior) : List Event :=
  if ports.isEmpty then []
  else ports.flatMap fun p => baudrates.flatMap fun baud => testPortTrace (env p baud)

/-- State of the serial transport: the member `serial_fd` (src line 47,
`-1` when no port is open) together with the list of file descriptors
the process currently holds open, so that "at most one interface open"
is a statement about the OS resource and not a tautology of the type. -/
structure SerialState where
  serial_fd : Int
  osOpen : List Int
deriving DecidableEq

/-- Constructor state (src line 57): no port open. -/
def initialSerial : SerialState := ⟨-1, []⟩

/-- `closeSerial` (src lines 189-201): if a descriptor is held it is
closed (released to the OS) and the member reset to `-1`; otherwise
nothing happens. -/
def closeSerial (s : SerialState) : SerialState :=
  if s.serial_fd ≠ -1 then ⟨-1, s.osOpen.erase s.serial_fd⟩ else s

/-- `openSerial` (src lines 106-187): first `closeSerial()`, then the
OS either refuses (`open` returns `-1`, modelled `none`) or hands out a
fresh descriptor `fd`.  Returns the success flag and the new state. -/
def openSerial (s : SerialState) (osResult : Option Int) : Bool × SerialState :=
  let s2 := closeSerial s
  match osResult with
  | none => (false, s2)
  | some fd => (true, ⟨fd, fd :: s2.osOpen⟩)

/-- One transport operation as issued by the diagnostic. -/
inductive SerialOp where
  | op_open : Option Int → SerialOp
  | op_close : SerialOp

/-- Apply one operation to the transport state. -/
def applyOp (s : SerialState) : SerialOp → SerialState
  | .op_open r => (openSerial s r).2
  | .op_close => closeSerial s

/-- Apply a sequence of operations from left to right. -/
def applyOps (s : SerialState) (ops : List SerialOp) : SerialState :=
  ops.foldl applyOp s

/-- A descriptor the OS hands out is never `-1`; an operation sequence
is valid when all its opens respect that. -/
def validOps (ops : List SerialOp) : Prop :=
  ∀ fd : Int, SerialOp.op_open (some fd) ∈ ops → fd ≠ -1

/-- The transport invariant: either no port is open and no descriptor is
held, or exactly the tracked descriptor is held. -/
def serialInv (s : SerialState) : Prop :=
  (s.serial_fd = -1 ∧ s.osOpen = []) ∨
  (s.serial_fd ≠ -1 ∧ s.osOpen = [s.serial_fd])

/-- A behavior for witnesses: the open fails. -/
def failBehavior : PortBehavior :=
  { openOk := false
    resetWriteOk := false
    resetRead := .err
    infoWriteOk := false
    infoRead := .err
    healthWriteOk := false
    healthRead := .err
    scanWriteOk := false
    scanReads := fun _ => 0
    stopWriteOk := false
    duration := 7 }

/-- A behavior for witnesses: everything answers.  The info response is
a 27-byte frame with valid header, the health response is 10 bytes with
status 0 and error bytes `0x34` (low, offset 8) and `0x12` (high,
offset 9); every scan read returns 25 bytes (5 heuristic points). -/
def sampleBehavior : PortBehavior :=
  { openOk := true
    resetWriteOk := true
    resetRead := .data [0x3F, 0x11, 0x22, 0x33]
    infoWriteOk := true
    infoRead := .data ([0xA5, 0x5A, 0x14, 0, 0, 0, 4, 0x18, 1, 2, 3] ++
      List.replicate 16 0x41)
    healthWriteOk := true
    healthRead := .data [0xA5, 0x5A, 3, 0, 0, 0, 6, 0, 0x34, 0x12]
    scanWriteOk := true
    scanReads := fun _ => 25
    stopWriteOk := true
    duration := 42 }

/-! ## Helper lemmas -/

theorem shiftLeft_lor_eq_add (n : Nat) :
    ∀ h l : Nat, l < 2 ^ n → (h <<< n) ||| l = h * 2 ^ n + l := by
  induction n with
  | zero =>
    intro h l hl
    interval_cases l
    simp [Nat.shiftLeft_eq]
  | succ n ih =>
    intro h l hl
    have hdecomp : Nat.bit (l % 2 = 1) (l >>> 1) = l :=
      Nat.bit_decide_mod_two_eq_one_shiftRight_one l
    have hsh : h <<< (n + 1) = Nat.bit false (h <<< n) := by
      simp [Nat.shiftLeft_eq, Nat.bit, Nat.pow_succ]
      ring
    have hl2 : l >>> 1 < 2 ^ n := by
      rw [Nat.shiftRight_one]
      omega
    rw [hsh, ← hdecomp, Nat.lor_bit, ih h (l >>> 1) hl2]
    have hkey : h * 2 ^ (n + 1) = 2 * (h * 2 ^ n) := by ring
    simp only [Bool.false_or, Nat.bit_val, Nat.shiftRight_one, hkey]
    rcases Nat.mod_two_eq_zero_or_one l with h0 | h1
    · simp only [h0]
      norm_num
      omega
    · simp only [h1]
      norm_num
      omega

theorem byteAt_lt (r : ReadResult) (i : Nat) : r.byteAt i < 256 := by
  cases r with
  | err => simp [ReadResult.byteAt]
  | data bs => exact Nat.mod_lt _ (by norm_num)

theorem scanLoopFrom_true_gt (reads : Nat → Int) :
    ∀ n attempts total, (scanLoopFrom reads attempts total n).1 = true →
      10 < (scanLoopFrom reads attempts total n).2 := by
  intro n
  induction n with
  | zero =>
    intro a t h
    simp [scanLoopFrom] at h
  | succ n ih =>
    intro a t h
    rw [scanLoopFrom] at h ⊢
    by_cases hb : 0 < reads a
    · by_cases ht : 10 < t + (reads a).toNat / 5
      · simp only [hb, if_true, ht] at h ⊢
      · simp only [hb, if_true, ht, if_false] at h ⊢
        exact ih _ _ h
    · simp only [hb, if_false] at h ⊢
      exact ih _ _ h

theorem scanLoopFrom_false_le (reads : Nat → Int) :
    ∀ n attempts total, total ≤ 10 →
      (scanLoopFrom reads attempts total n).1 = false →
      (scanLoopFrom reads attempts total n).2 ≤ 10 := by
  intro n
  induction n with
  | zero =>
    intro a t ht h
    simpa [scanLoopFrom] using ht
  | succ n ih =>
    intro a t ht h
    rw [scanLoopFrom] at h ⊢
    by_cases hb : 0 < reads a
    · by_cases hgt : 10 < t + (reads a).toNat / 5
      · simp [hb, hgt] at h
      · simp only [hb, if_true, hgt, if_false] at h ⊢
        exact ih _ _ (by omega) h
    · simp only [hb, if_false] at h ⊢
      exact ih _ _ ht h

theorem scanLoopFrom_congr (reads reads' : Nat → Int) :
    ∀ n attempts total,
      (∀ i, attempts ≤ i → i < attempts + n → reads i = reads' i) →
      scanLoopFrom reads attempts total n = scanLoopFrom reads' attempts total n := by
  intro n
  induction n with
  | zero =>
    intro a t _
    rfl
  | succ n ih =>
    intro a t hag
    rw [scanLoopFrom, scanLoopFrom]
    have ha : reads a = reads' a := hag a (le_refl a) (by omega)
    rw [ha]
    by_cases hb : 0 < reads' a
    · by_cases hgt : 10 < t + (reads' a).toNat / 5
      · simp only [hb, if_true, hgt]
      · simp only [hb, if_true, hgt, if_false]
        exact ih _ _ fun i h1 h2 => hag i (by omega) (by omega)
    · simp only [hb, if_false]
      exact ih _ _ fun i h1 h2 => hag i (by omega) (by omega)

theorem testPort_port (p : String) (baud : Nat) (b : PortBehavior) :
    (testPort p baud b).port = p := by
  unfold testPort
  split <;> rfl

theorem testPort_baudrate (p : String) (baud : Nat) (b : PortBehavior) :
    (testPort p baud b).baudrate = baud := by
  unfold testPort
  split <;> rfl

theorem runMatrix_pairs (ports : List String) (env : String → Nat → PortBehavior) :
    (runMatrix ports env).map (fun r => (r.port, r.baudrate)) =
      ports.flatMap fun p => baudrates.map fun baud => (p, baud) := by
  unfold runMatrix
  induction ports with
  | nil => rfl
  | cons p ps ih =>
    simp only [List.flatMap_cons, List.map_append, ih]
    congr 1
    rw [List.map_map]
    exact List.map_congr_left fun baud _ => by
      simp [Function.comp, testPort_port, testPort_baudrate]

theorem runMatrix_length (ports : List String) (env : String → Nat → PortBehavior) :
    (runMatrix ports env).length = ports.length * baudrates.length := by
  unfold runMatrix
  induction ports with
  | nil => rfl
  | cons p ps ih =>
    simp only [List.flatMap_cons, List.length_append, ih, List.length_map,
      List.length_cons]
    ring

theorem countConfigs_working (results : List TestResult) :
    (countConfigs results).1 =
      (results.filter fun r => r.scan_start_success).length := by
  induction results with
  | nil => rfl
  | cons r rs ih =>
    rw [countConfigs]
    by_cases h1 : r.scan_start_success
    · simp [List.filter_cons, h1, ih]
    · by_cases h2 : r.device_info_success || r.health_check_success || r.raw_communication
      · simp [List.filter_cons, h1, h2, ih]
      · simp [List.filter_cons, h1, h2, ih]

theorem countConfigs_partial (results : List TestResult) :
    (countConfigs results).2 =
      (results.filter fun r => !r.scan_start_success &&
        (r.device_info_success || r.health_check_success || r.raw_communication)).length := by
  induction results with
  | nil => rfl
  | cons r rs ih =>
    rw [countConfigs]
    by_cases h1 : r.scan_start_success
    · simp [List.filter_cons, h1, ih]
    · by_cases h2 : r.device_info_success || r.health_check_success || r.raw_communication
      · simp [List.filter_cons, h1, h2, ih]
      · simp [List.filter_cons, h1, h2, ih]

theorem closeSerial_fd (s : SerialState) : (closeSerial s).serial_fd = -1 := by
  unfold closeSerial
  split
  · rfl
  · next h => simpa using h

theorem closeSerial_not_open (s : SerialState) (h : s.serial_fd = -1) :
    closeSerial s = s := by
  simp [closeSerial, h]

theorem closeSerial_inv (s : SerialState) (h : serialInv s) :
    (closeSerial s).serial_fd = -1 ∧ (closeSerial s).osOpen = [] := by
  rcases h with ⟨h1, h2⟩ | ⟨h1, h2⟩
  · rw [closeSerial_not_open s h1]
    exact ⟨h1, h2⟩
  · refine ⟨closeSerial_fd s, ?_⟩
    simp [closeSerial, h1, h2]

theorem openSerial_inv (s : SerialState) (r : Option Int)
    (hs : serialInv s) (hr : ∀ fd, r = some fd → fd ≠ -1) :
    serialInv (openSerial s r).2 := by
  obtain ⟨h1, h2⟩ := closeSerial_inv s hs
  cases r with
  | none =>
    exact Or.inl ⟨h1, h2⟩
  | some fd =>
    right
    refine ⟨hr fd rfl, ?_⟩
    simp [openSerial, h2]

theorem serialInv_len (s : SerialState) (h : serialInv s) : s.osOpen.length ≤ 1 := by
  rcases h with ⟨_, h2⟩ | ⟨_, h2⟩ <;> simp [h2]

theorem applyOps_inv (ops : List SerialOp) :
    ∀ s, serialInv s → validOps ops → serialInv (applyOps s ops) := by
  induction ops with
  | nil =>
    intro s hs _
    exact hs
  | cons op ops ih =>
    intro s hs hv
    have hv' : validOps ops := fun fd hm => hv fd (List.mem_cons_of_mem _ hm)
    rw [applyOps, List.foldl_cons]
    apply ih _ _ hv'
    cases op with
    | op_open r =>
      exact openSerial_inv s r hs fun fd hfd =>
        hv fd (by rw [hfd]; exact List.mem_cons_self _ _)
    | op_close =>
      obtain ⟨h1, h2⟩ := closeSerial_inv s hs
      exact Or.inl ⟨h1, h2⟩

/-! ## Claims -/

/-- C1: whenever interface discovery returns a non-empty sequence, the
matrix produces exactly one `TestResult` per (interface, baud rate)
cell — the identifying pairs of the result list are exactly the
Cartesian product, so `|results| = |interfaces| * 5`, with the baud rates
of each interface tried in the order 115200, 256000, 230400, 460800,
921600; with zero interfaces the result list is empty. -/
theorem C1_matrix_exhaustive (ports : List String) (env : String → Nat → PortBehavior) :
    ((runFullDiagnostic ports env).map (fun r => (r.port, r.baudrate)) =
      ports.flatMap fun p =>
        [(p, 115200), (p, 256000), (p, 230400), (p, 460800), (p, 921600)]) ∧
    (ports ≠ [] → (runFullDiagnostic ports env).length = ports.length * 5) ∧
    (ports = [] → runFullDiagnostic ports env = []) := by
  by_cases hp : ports.isEmpty
  · have h0 : ports = [] := List.isEmpty_iff.mp hp
    subst h0
    refine ⟨rfl, ?_, fun _ => rfl⟩
    intro h
    exact absurd rfl h
  · have h0 : ports ≠ [] := fun h => hp (by simp [h])
    have hrw : runFullDiagnostic ports env = runMatrix ports env := by
      simp [runFullDiagnostic, hp]
    refine ⟨?_, ?_, fun h => absurd h h0⟩
    · rw [hrw, runMatrix_pairs]
      rfl
    · intro _
      rw [hrw]
      simpa [baudrates] using runMatrix_length ports env

/-- C1 witness: one discovered interface yields exactly five results. -/
theorem C1_matrix_exhaustive_witness :
    (runFullDiagnostic ["/dev/ttyUSB0"] fun _ _ => failBehavior).length = 5 := by
  have h := (C1_matrix_exhaustive ["/dev/ttyUSB0"] fun _ _ => failBehavior).2.1
    (by simp)
  simpa using h

/-- C2: in the finalized summary, `total_tests` is the number of results,
`working_configurations` counts the results with `scan_start_success`,
and `partial_configurations` counts the results with
`¬scan_start_success` and at least one of the three other probe
booleans — for every possible sequence of results. -/
theorem C2_summary_counts (results : List TestResult) :
    (finalizeLogs results).total_tests = results.length ∧
    (finalizeLogs results).working_configurations =
      (results.filter fun r => r.scan_start_success).length ∧
    (finalizeLogs results).partial_configurations =
      (results.filter fun r => !r.scan_start_success &&
        (r.device_info_success || r.health_check_success ||
          r.raw_communication)).length :=
  ⟨rfl, countConfigs_working results, countConfigs_partial results⟩

/-- C3: `scan_start_success` implies more than 10 points;
`¬scan_start_success` implies at most 10 points; when the scan phase
runs, the loop's accumulated heuristic total is what is recorded in
`scan_points_received`; the loop reads at most `max_attempts` (20)
times; and it exits with success at the very attempt whose contribution
pushes the running total over 10. -/
theorem C3_scan_threshold (p : String) (baud : Nat) (b : PortBehavior) :
    ((testPort p baud b).scan_start_success = true →
      10 < (testPort p baud b).scan_points_received) ∧
    ((testPort p baud b).scan_start_success = false →
      (testPort p baud b).scan_points_received ≤ 10) ∧
    (b.openOk = true → b.scanWriteOk = true →
      (testPort p baud b).scan_start_success = (scanLoop b.scanReads).1 ∧
      (testPort p baud b).scan_points_received = (scanLoop b.scanReads).2) ∧
    (∀ reads reads' : Nat → Int,
      (∀ i, i < max_attempts → reads i = reads' i) →
      scanLoop reads = scanLoop reads') ∧
    (∀ (reads : Nat → Int) (a tot n : Nat), tot ≤ 10 → 0 < reads a →
      10 < tot + (reads a).toNat / 5 →
      scanLoopFrom reads a tot (n + 1) = (true, tot + (reads a).toNat / 5)) := by
  refine ⟨?_, ?_, ?_, ?_, ?_⟩
  · intro h
    by_cases ho : b.openOk
    · by_cases hs : b.scanWriteOk
      · have h1 : (testPort p baud b).scan_start_success = (scanLoop b.scanReads).1 := by
          simp [testPort, ho, scanOutcome, hs]
        have h2 : (testPort p baud b).scan_points_received = (scanLoop b.scanReads).2 := by
          simp [testPort, ho, scanOutcome, hs]
        rw [h2]
        exact scanLoopFrom_true_gt _ _ _ _ (h1 ▸ h)
      · simp [testPort, ho, scanOutcome, hs] at h
    · simp [testPort, ho] at h
  · intro h
    by_cases ho : b.openOk
    · by_cases hs : b.scanWriteOk
      · have h1 : (testPort p baud b).scan_start_success = (scanLoop b.scanReads).1 := by
          simp [testPort, ho, scanOutcome, hs]
        have h2 : (testPort p baud b).scan_points_received = (scanLoop b.scanReads).2 := by
          simp [testPort, ho, scanOutcome, hs]
        rw [h2]
        exact scanLoopFrom_false_le _ _ _ _ (by omega) (h1 ▸ h)
      · simp [testPort, ho, scanOutcome, hs]
    · simp [testPort, ho]
  · intro ho hs
    constructor <;> simp [testPort, ho, scanOutcome, hs]
  · intro reads reads' hag
    unfold scanLoop
    exact scanLoopFrom_congr reads reads' max_attempts 0 0
      fun i h1 h2 => hag i (by omega)
  · intro reads a tot n htot hb hgt
    rw [scanLoopFrom]
    simp only [hb, if_true, hgt]

/-- C3 witness: with every scan read returning 25 bytes the recorded
count is the loop's total, and a loop entered with a running total of 10
and a 25-byte read exits at once with success and total 15. -/
theorem C3_scan_threshold_witness :
    (testPort "w3" 115200 sampleBehavior).scan_points_received =
      (scanLoop sampleBehavior.scanReads).2 ∧
    scanLoopFrom (fun _ => (25 : Int)) 2 10 6 = (true, 15) := by
  constructor
  · exact ((C3_scan_threshold "w3" 115200 sampleBehavior).2.2.1 rfl rfl).2
  · have h := (C3_scan_threshold "w3" 115200 sampleBehavior).2.2.2.2
      (fun _ => (25 : Int)) 2 10 5 (by norm_num) (by norm_num) (by decide)
    simpa using h

/-- Info response with serial-number region all `0x41`. -/
def infoRespA : ReadResult :=
  .data ([0xA5, 0x5A, 0x14, 0, 0, 0, 4, 0x18, 1, 2, 3] ++ List.replicate 16 0x41)

/-- Same response with serial-number region all `0x42`. -/
def infoRespB : ReadResult :=
  .data ([0xA5, 0x5A, 0x14, 0, 0, 0, 4, 0x18, 1, 2, 3] ++ List.replicate 16 0x42)

/-- C4 counterexample: two valid device-info responses of ≥ 20 bytes
that differ only in the 16 bytes following the hardware-version byte
(the serial-number region as the spec places it) are indistinguishable
to the device-info phase — the code never reads, let alone extracts, a
serial number, refuting the claim that the 16-byte serial number is
among the extracted fields. -/
theorem C4_counterexample :
    extractDeviceInfo infoRespA = extractDeviceInfo infoRespB ∧
    extractDeviceInfoSpec infoRespA ≠ extractDeviceInfoSpec infoRespB := by
  decide

/-- C4 (amended): `device_info_success` is set exactly when the response
has at least 7 bytes and a valid `0xA5 0x5A` header; with at least 20
bytes the model byte, the two firmware bytes and the hardware byte are
extracted at offsets 7-10 (no serial number is extracted — the fields
depend only on the length and bytes 0-10); with fewer than 20 bytes no
field is extracted but success is still recorded from the header check
alone. -/
theorem C4_device_info (p : String) (baud : Nat) (b : PortBehavior)
    (ho : b.openOk = true) (hw : b.infoWriteOk = true) :
    ((testPort p baud b).device_info_success = true ↔
      7 ≤ b.infoRead.bytes ∧ validHeader b.infoRead = true) ∧
    (∀ r : ReadResult, 7 ≤ r.bytes → validHeader r = true → 20 ≤ r.bytes →
      extractDeviceInfo r = some ⟨r.byteAt 7, r.byteAt 8, r.byteAt 9, r.byteAt 10⟩) ∧
    (∀ r : ReadResult, r.bytes < 20 → extractDeviceInfo r = none) ∧
    (∀ r r' : ReadResult, r.bytes = r'.bytes →
      (∀ i, i ≤ 10 → r.byteAt i = r'.byteAt i) →
      extractDeviceInfo r = extractDeviceInfo r') := by
  refine ⟨?_, ?_, ?_, ?_⟩
  · simp [testPort, ho, infoOutcome, hw, Bool.and_eq_true, decide_eq_true_iff]
  · intro r h1 h2 h3
    rw [extractDeviceInfo, if_pos ⟨h1, h2, h3⟩]
  · intro r h
    rw [extractDeviceInfo, if_neg]
    rintro ⟨-, -, h20⟩
    omega
  · intro r r' hb hag
    have hv : validHeader r = validHeader r' := by
      simp [validHeader, hag 0 (by norm_num), hag 1 (by norm_num)]
    rw [extractDeviceInfo, extractDeviceInfo, hb, hv,
      hag 7 (by norm_num), hag 8 (by norm_num), hag 9 (by norm_num),
      hag 10 (by norm_num)]

/-- C4 witness: on a concrete 27-byte valid response the phase succeeds
and extracts model 0x18, firmware 1.2, hardware 3. -/
theorem C4_device_info_witness :
    (testPort "w4" 115200 sampleBehavior).device_info_success = true ∧
    extractDeviceInfo sampleBehavior.infoRead = some ⟨0x18, 1, 2, 3⟩ := by
  have h := C4_device_info "w4" 115200 sampleBehavior rfl rfl
  refine ⟨h.1.mpr (by decide), ?_⟩
  have h2 := h.2.1 sampleBehavior.infoRead (by decide) (by decide) (by decide)
  rw [h2]
  decide

/-- C5: `health_check_success` is set exactly when the response has at
least 10 bytes and a valid `0xA5 0x5A` header, and in that case the
status byte at offset 7 and the 16-bit error code are extracted, the
error code assembled little-endian from offsets 8 (low) and 9 (high):
the source's `(buffer[9] << 8) | buffer[8]` equals
`buffer[8] + 256 * buffer[9]`. -/
theorem C5_health (p : String) (baud : Nat) (b : PortBehavior)
    (ho : b.openOk = true) (hw : b.healthWriteOk = true) :
    ((testPort p baud b).health_check_success = true ↔
      10 ≤ b.healthRead.bytes ∧ validHeader b.healthRead = true) ∧
    (∀ r : ReadResult, 10 ≤ r.bytes → validHeader r = true →
      extractHealth r = some ⟨r.byteAt 7, r.byteAt 8 + 256 * r.byteAt 9⟩) := by
  constructor
  · simp [testPort, ho, healthOutcome, hw, Bool.and_eq_true, decide_eq_true_iff]
  · intro r h1 h2
    rw [extractHealth, if_pos ⟨h1, h2⟩]
    have hlor : (r.byteAt 9 <<< 8) ||| r.byteAt 8 = r.byteAt 9 * 2 ^ 8 + r.byteAt 8 :=
      shiftLeft_lor_eq_add 8 _ _ (by simpa using byteAt_lt r 8)
    have hle : r.byteAt 9 * 2 ^ 8 + r.byteAt 8 = r.byteAt 8 + 256 * r.byteAt 9 := by
      ring
    rw [hlor, hle]

/-- C5 witness: a concrete 10-byte health response with error bytes
`0x34` (offset 8) and `0x12` (offset 9) yields success, status 0 and
error code 0x1234 = 4660. -/
theorem C5_health_witness :
    (testPort "w5" 115200 sampleBehavior).health_check_success = true ∧
    extractHealth sampleBehavior.healthRead = some ⟨0, 4660⟩ := by
  have h := C5_health "w5" 115200 sampleBehavior rfl rfl
  refine ⟨h.1.mpr (by decide), ?_⟩
  have h2 := h.2 sampleBehavior.healthRead (by decide) (by decide)
  rw [h2]
  decide

/-- C6: a cell whose open fails yields a result with exactly the error
message "Failed to open serial port" (non-empty), all four probe
booleans false, zero scan points and the measured duration; no probe
phase is invoked (the cell's I/O trace holds no command write at all);
and the matrix still produces its full complement of cells. -/
theorem C6_open_failure (p : String) (baud : Nat) (b : PortBehavior)
    (ports : List String) (env : String → Nat → PortBehavior)
    (h : b.openOk = false) :
    testPort p baud b =
      { port := p
        baudrate := baud
        raw_communication := false
        device_info_success := false
        health_check_success := false
        scan_start_success := false
        scan_points_received := 0
        error_message := "Failed to open serial port"
        test_duration_ms := b.duration } ∧
    (testPort p baud b).error_message ≠ "" ∧
    testPortTrace b = [Event.openPort false] ∧
    (∀ frame, Event.cmd frame ∉ testPortTrace b) ∧
    (runMatrix ports env).length = ports.length * 5 := by
  refine ⟨?_, ?_, ?_, ?_, ?_⟩
  · simp [testPort, h]
  · simp [testPort, h]
  · simp [testPortTrace, h]
  · intro frame hmem
    simp [testPortTrace, h] at hmem
  · simpa [baudrates] using runMatrix_length ports env

/-- C6 witness: the failing behavior at a concrete cell. -/
theorem C6_open_failure_witness :
    testPort "COM3" 256000 failBehavior =
      { port := "COM3"
        baudrate := 256000
        raw_communication := false
        device_info_success := false
        health_check_success := false
        scan_start_success := false
        scan_points_received := 0
        error_message := "Failed to open serial port"
        test_duration_ms := 7 } :=
  (C6_open_failure "COM3" 256000 failBehavior [] (fun _ _ => failBehavior) rfl).1

/-- C7: the report's summary is always the one finalized from exactly
the results it holds (finalization happens once, on every termination
path of `mainRun`), and in the zero-interface case the report holds an
empty result sequence, an all-zero summary, and the run performs no I/O
at all — in particular no probe is attempted. -/
theorem C7_finalize_once (ports : List String) (env : String → Nat → PortBehavior) :
    (mainRun ports env).summary = finalizeLogs (mainRun ports env).test_results ∧
    (ports = [] →
      (mainRun ports env).test_results = [] ∧
      (mainRun ports env).summary = ⟨0, 0, 0⟩ ∧
      runTrace ports env = []) := by
  refine ⟨rfl, ?_⟩
  intro h
  subst h
  exact ⟨rfl, rfl, rfl⟩

/-- C7 witness: zero discovered interfaces. -/
theorem C7_finalize_once_witness :
    (mainRun [] fun _ _ => failBehavior).summary = ⟨0, 0, 0⟩ :=
  ((C7_finalize_once [] fun _ _ => failBehavior).2 rfl).2.1

/-- C8: for every cell whose interface opens successfully, the STOP
command (`0xA5 0x25`) followed by the 100 ms delay (and the close) is
the tail of the cell's I/O trace, whatever the scan phase did — the
universal quantification over behaviors covers success, exhaustion of
the 20 attempts, early exit, and even a failed START_SCAN write, so the
STOP is never sent only on success. -/
theorem C8_stop_on_every_exit (b : PortBehavior) (h : b.openOk = true) :
    [Event.cmd stopCmd, Event.delay 100, Event.closePort] <:+ testPortTrace b := by
  rw [testPortTrace, if_pos h]
  refine ⟨Event.openPort true ::
    (phaseTrace b.resetWriteOk resetCmd 100 b.resetRead ++
      phaseTrace b.infoWriteOk infoCmd 100 b.infoRead ++
      phaseTrace b.healthWriteOk healthCmd 100 b.healthRead ++
      (Event.cmd scanCmd ::
        if b.scanWriteOk then
          Event.delay 500 :: scanLoopTraceFrom b.scanReads 0 0 max_attempts
        else [])), ?_⟩
  simp [List.append_assoc]

/-- C8 witness: the concrete successful behavior. -/
theorem C8_stop_on_every_exit_witness :
    [Event.cmd stopCmd, Event.delay 100, Event.closePort] <:+
      testPortTrace sampleBehavior :=
  C8_stop_on_every_exit sampleBehavior rfl

/-- C9: `closeSerial` is idempotent and a no-op on a state with no open
port, and because `openSerial` first closes any previously open
descriptor, every operation sequence from the initial state keeps the
transport invariant — in particular at most one descriptor is ever held
open. -/
theorem C9_close_idempotent :
    (∀ s : SerialState, closeSerial (closeSerial s) = closeSerial s) ∧
    (∀ s : SerialState, s.serial_fd = -1 → closeSerial s = s) ∧
    (∀ ops : List SerialOp, validOps ops →
      serialInv (applyOps initialSerial ops) ∧
      (applyOps initialSerial ops).osOpen.length ≤ 1) := by
  refine ⟨?_, ?_, ?_⟩
  · intro s
    exact closeSerial_not_open _ (closeSerial_fd s)
  · intro s h
    exact closeSerial_not_open s h
  · intro ops hv
    have hinv := applyOps_inv ops initialSerial (Or.inl ⟨rfl, rfl⟩) hv
    exact ⟨hinv, serialInv_len _ hinv⟩

/-- C9 witness: double close on a concrete open state, and a concrete
open-open-close sequence never holds more than one descriptor. -/
theorem C9_close_idempotent_witness :
    closeSerial (closeSerial ⟨4, [4]⟩) = closeSerial ⟨4, [4]⟩ ∧
    (applyOps initialSerial
      [SerialOp.op_open (some 3), SerialOp.op_open (some 5),
        SerialOp.op_close]).osOpen.length ≤ 1 := by
  refine ⟨C9_close_idempotent.1 ⟨4, [4]⟩, ?_⟩
  refine (C9_close_idempotent.2.2 _ ?_).2
  intro fd hm
  simp only [List.mem_cons, List.not_mem_nil, or_false] at hm
  rcases hm with h | h | h
  · simp only [SerialOp.op_open.injEq, Option.some.injEq] at h
    omega
  · simp only [SerialOp.op_open.injEq, Option.some.injEq] at h
    omega
  · exact absurd h (by simp)

/-- C10: `error_message` is non-empty exactly when the open failed, in
which case it is the string "Failed to open serial port"; every cell
that opened keeps the empty message no matter what the probe phases
did. -/
theorem C10_error_message (p : String) (baud : Nat) (b : PortBehavior) :
    ((testPort p baud b).error_message ≠ "" ↔ b.openOk = false) ∧
    (b.openOk = false →
      (testPort p baud b).error_message = "Failed to open serial port") ∧
    (b.openOk = true → (testPort p baud b).error_message = "") := by
  by_cases h : b.openOk
  · refine ⟨?_, ?_, ?_⟩ <;> simp [testPort, h]
  · rw [Bool.not_eq_true] at h
    refine ⟨?_, ?_, ?_⟩ <;> simp [testPort, h]

/-- C10 witness: the failing behavior carries exactly the fixed message,
the succeeding one the empty message. -/
theorem C10_error_message_witness :
    (testPort "w10" 921600 failBehavior).error_message =
      "Failed to open serial port" ∧
    (testPort "w10b" 921600 sampleBehavior).error_message = "" :=
  ⟨(C10_error_message "w10" 921600 failBehavior).2.1 rfl,
    (C10_error_message "w10b" 921600 sampleBehavior).2.2 rfl⟩

end RPLidar
